import Mathlib

/-!
Verification development for the chat server (src/server.py).

The server's mutable state (USERS, ROOMS, HISTORY, TYPING dicts) is embedded
as association lists with Python-dict semantics (update in place, insert at
the end), Python sets of usernames as duplicate-free lists with set-style
add/discard, and the per-connection handler coroutine as a pure step function
from (state, session, inbound payload) to (state, session, outbound sends,
persist-called flag).  Connection handles (websockets) are numbers; a user
record's ws field is `none` when no live connection is attached.
-/

namespace Chat

def HISTORY_LIMIT : Nat := 200

def IDLE_TIMEOUT : Nat := 300

/-- One entry of USERS: password plus runtime fields (ws handle, last_active,
status, activity), mirroring the dict built at registration/restore. -/
structure User where
  password : String
  ws : Option Nat
  last_active : Nat
  status : String
  activity : String
deriving DecidableEq, Repr

/-- One history entry as built in the message handler:
room, sender username, text, timestamp. -/
structure HMsg where
  room : String
  username : String
  text : String
  ts : Nat
deriving DecidableEq, Repr

/-- One entry of ROOMS: admin, open_join, visible, members, pending, shutdown.
members/pending are Python sets of usernames, embedded as duplicate-free
lists. -/
structure Room where
  admin : Option String
  open_join : Bool
  visible : Bool
  members : List String
  pending : List String
  shutdown : Bool
deriving DecidableEq, Repr

/-- The server's global mutable state: USERS, ROOMS, HISTORY, TYPING. -/
structure ServerState where
  users : List (String × User)
  rooms : List (String × Room)
  history : List (String × List HMsg)
  typing : List (String × List String)
deriving DecidableEq, Repr

/-- Python dict lookup (first association wins; dict keys are unique). -/
def dlookup {α : Type} : List (String × α) → String → Option α
  | [], _ => none
  | (k2, v) :: rest, k => if k2 = k then some v else dlookup rest k

/-- Python dict assignment d[k] = v: overwrite in place, else append. -/
def dinsert {α : Type} : List (String × α) → String → α → List (String × α)
  | [], k, v => [(k, v)]
  | (k2, v2) :: rest, k, v =>
    if k2 = k then (k, v) :: rest else (k2, v2) :: dinsert rest k v

/-- Python set.add on a username set. -/
def setAdd (s : List String) (x : String) : List String :=
  if x ∈ s then s else s ++ [x]

/-- Python set.discard on a username set. -/
def setDiscard (s : List String) (x : String) : List String :=
  s.filter (fun y => decide (y ≠ x))

/-- Python str.strip(): drop leading and trailing whitespace.  (Defined on
the character list so that concrete traces evaluate in the kernel.) -/
def pyStrip (s : String) : String :=
  ⟨((s.data.dropWhile Char.isWhitespace).reverse.dropWhile
      Char.isWhitespace).reverse⟩

/-- Python str.lower() (ASCII case folding). -/
def pyLower (s : String) : String :=
  ⟨s.data.map Char.toLower⟩

/-- Python truthiness of an optional string (None and "" are falsy). -/
def truthy : Option String → Bool
  | none => false
  | some t => decide (t ≠ "")

/-- Python `x or default` for strings: empty falls back. -/
def pyOr (s dflt : String) : String :=
  if s = "" then dflt else s

/-- The room record built by ensure_room for an absent room. -/
def defaultRoom : Room :=
  ⟨none, true, true, [], [], false⟩

/-- ensure_room: create the room with defaults if it does not exist
(also seeds its history list via setdefault). -/
def ensure_room (st : ServerState) (room : String) : ServerState :=
  if (dlookup st.rooms room).isSome then st
  else
    { st with
      rooms := dinsert st.rooms room defaultRoom,
      history :=
        if (dlookup st.history room).isSome then st.history
        else dinsert st.history room [] }

/-- add_history on the bare list: append, then pop the head once the
length exceeds HISTORY_LIMIT. -/
def add_history_list (h : List HMsg) (m : HMsg) : List HMsg :=
  if HISTORY_LIMIT < (h ++ [m]).length then (h ++ [m]).drop 1 else h ++ [m]

/-- add_history(room, msg): setdefault to [], append, evict the oldest
entry when over the limit. -/
def add_history (st : ServerState) (room : String) (m : HMsg) : ServerState :=
  { st with
    history :=
      dinsert st.history room (add_history_list ((dlookup st.history room).getD []) m) }

/-- parse_bool_token: recognize common true/false tokens, else None. -/
def parse_bool_token (token : String) : Option Bool :=
  let t := pyLower (pyStrip token)
  if t = "true" ∨ t = "1" ∨ t = "yes" ∨ t = "y" ∨ t = "on" ∨ t = "open" then
    some true
  else if t = "false" ∨ t = "0" ∨ t = "no" ∨ t = "n" ∨ t = "off" ∨ t = "closed" then
    some false
  else none

/-- A JSON value at an open_join/visible field: a bool, or a token string
fed to parse_bool_token. -/
inductive BoolToken where
  | b (v : Bool)
  | s (v : String)
deriving DecidableEq, Repr

/-- Resolve a BoolToken the way createroom/editroom do: a bool is taken
as-is, a string is parsed, an unparsable token falls back to dflt. -/
def tokenToBool (t : BoolToken) (dflt : Bool) : Bool :=
  match t with
  | BoolToken.b v => v
  | BoolToken.s tok => (parse_bool_token tok).getD dflt

/-- An outbound payload, one constructor per reply "type" the server sends. -/
inductive OutMsg where
  | info (msg : String)
  | error (msg : String)
  | auth_ok (msg : String)
  | auth_fail (msg : String)
  | message (m : HMsg)
  | room_join (room : String) (username : String)
  | dm (sender : String) (text : String)
  | dm_sent (toUser : String) (text : String)
  | room_created (room : String)
  | room_updated (room : String)
  | join_request (room : String) (user : String)
  | request_ack (room : String)
  | joined (room : String)
  | rooms_list (rooms : List (String × Option String × Bool × Bool))
  | presence (room : String) (users : List (String × String × String))
  | typing (room : String) (users : List String)
  | history (room : String) (messages : List HMsg)
  | presence_update (user : String) (status : String)
deriving DecidableEq, Repr

/-- broadcast(room, obj): one send per member that has a live ws handle. -/
def broadcast (st : ServerState) (room : String) (m : OutMsg) : List (Nat × OutMsg) :=
  match dlookup st.rooms room with
  | none => []
  | some r => (r.members.filterMap (fun u => (dlookup st.users u).bind User.ws)).map
      (fun w => (w, m))

/-- The fields a client payload may carry, each optional (absent keys read
as None).  open_join/visible may be a bool or a token string; state is the
typing flag.  The wire field "to" of DMs is embedded as toUser. -/
structure ClientMsg where
  type : Option String
  action : Option String
  username : Option String
  password : Option String
  room : Option String
  text : Option String
  toUser : Option String
  user : Option String
  open_join : Option BoolToken
  visible : Option BoolToken
  state : Option Bool
  activity : Option String
deriving DecidableEq, Repr

/-- An inbound frame: unparseable input, or a parsed JSON object. -/
inductive Inbound where
  | malformed
  | parsed (d : ClientMsg)
deriving DecidableEq, Repr

/-- The handler coroutine's per-connection locals: username, authed,
current_room (never reassigned by the server) and this connection's ws. -/
structure Session where
  username : Option String
  authed : Bool
  current_room : String
  wsId : Nat
deriving DecidableEq, Repr

/-- Result of processing one inbound frame: the new global state, the new
session locals, the sends performed (ws handle, payload) in order, and
whether persist() ran during the frame. -/
structure StepResult where
  st : ServerState
  sess : Session
  sends : List (Nat × OutMsg)
  persisted : Bool
deriving DecidableEq, Repr

/-- In-place update of USERS[u] (no-op when the key is absent). -/
def updateUser (st : ServerState) (u : String) (f : User → User) : ServerState :=
  { st with
    users := st.users.map (fun p => if p.1 = u then (p.1, f p.2) else p) }

/-- In-place update of ROOMS[room] (no-op when the key is absent). -/
def updateRoom (st : ServerState) (room : String) (f : Room → Room) : ServerState :=
  { st with
    rooms := st.rooms.map (fun p => if p.1 = room then (p.1, f p.2) else p) }

/-- The get_help_text() string sent for a /help chat message. -/
def get_help_text : String :=
  String.intercalate "\n"
    ["Available commands (usage):", "",
     "Authentication:",
     "  /login <username> <password>",
     "  /register <username> <password> <password>", "",
     "Rooms & membership:",
     "  /rooms",
     "  /createroom <room> <open_join:true|false> <visible:true|false>",
     "    - Example: /createroom coding true true",
     "  /editroom <room> <open_join:true|false> <visible:true|false>",
     "    - Example: /editroom coding false true",
     "  /join <room>",
     "  /approve <room> <user>    # admin approves pending user",
     "  /deny <room> <user>       # admin denies pending user",
     "  /shutdown <room>          # admin only", "",
     "Messaging:",
     "  /dm <user> <message>      # direct message",
     "  /history [room]           # get last messages for room (default current)", "",
     "Presence & info:",
     "  /who [room]               # list users and statuses in room (default current)",
     "  /help                     # show this help text", "",
     "Misc:",
     "  /quit                     # disconnect", ""]

/-- Registration: reject an existing username, else create the account
online on this ws, auto-join general, ack and broadcast, persist. -/
def registerOp (st : ServerState) (sess : Session) (ts : Nat) (us ps : String) :
    StepResult :=
  if (dlookup st.users us).isSome then
    ⟨st, sess, [(sess.wsId, OutMsg.error "username exists")], false⟩
  else
    let st1 : ServerState :=
      { st with users := dinsert st.users us ⟨ps, some sess.wsId, ts, "online", ""⟩ }
    let sess1 : Session := ⟨some us, true, sess.current_room, sess.wsId⟩
    let st2 := ensure_room st1 "general"
    let st3 := updateRoom st2 "general"
      (fun r => { r with members := setAdd r.members us })
    ⟨st3, sess1,
      (sess.wsId, OutMsg.auth_ok ("Logged in as " ++ us)) ::
        broadcast st3 "general" (OutMsg.room_join "general" us),
      true⟩

/-- Login: reject unknown username or wrong password, else attach the ws,
refresh activity, force online, auto-join general, ack and broadcast.
No persist on this path. -/
def loginOp (st : ServerState) (sess : Session) (ts : Nat) (us ps : String) :
    StepResult :=
  let stored := ((dlookup st.users us).map User.password).getD ""
  if (dlookup st.users us).isNone ∨ stored ≠ ps then
    ⟨st, sess, [(sess.wsId, OutMsg.auth_fail "invalid credentials")], false⟩
  else
    let st1 := updateUser st us
      (fun i => ⟨i.password, some sess.wsId, ts, "online", i.activity⟩)
    let sess1 : Session := ⟨some us, true, sess.current_room, sess.wsId⟩
    let st2 := ensure_room st1 "general"
    let st3 := updateRoom st2 "general"
      (fun r => { r with members := setAdd r.members us })
    ⟨st3, sess1,
      (sess.wsId, OutMsg.auth_ok ("Logged in as " ++ us)) ::
        broadcast st3 "general" (OutMsg.room_join "general" us),
      false⟩

/-- The auth block: missing username/password is an error; register and
login are handled; any other action falls through (none) to the gate. -/
def authStep (st : ServerState) (sess : Session) (ts : Nat) (d : ClientMsg) :
    Option StepResult :=
  if truthy d.username && truthy d.password then
    if d.action = some "register" then
      some (registerOp st sess ts (d.username.getD "") (d.password.getD ""))
    else if d.action = some "login" then
      some (loginOp st sess ts (d.username.getD "") (d.password.getD ""))
    else none
  else
    some ⟨st, sess, [(sess.wsId, OutMsg.error "username/password required")], false⟩

/-- The post-gate bookkeeping: refresh USERS[username].last_active and
.activity from the payload (when the session has a truthy username). -/
def touchUser (st : ServerState) (sess : Session) (ts : Nat) (d : ClientMsg) :
    ServerState :=
  if truthy sess.username then
    updateUser st (sess.username.getD "")
      (fun i => ⟨i.password, i.ws, ts, i.status, d.activity.getD ""⟩)
  else st

/-- The "message" branch: /help interception, else ensure the room,
append to history and broadcast.  Never persists. -/
def handleMessage (st : ServerState) (sess : Session) (ts : Nat) (d : ClientMsg) :
    StepResult :=
  let room := pyOr (d.room.getD "general") "general"
  let text := d.text.getD ""
  if pyStrip text = "/help" then
    ⟨st, sess, [(sess.wsId, OutMsg.info get_help_text)], false⟩
  else
    let st1 := ensure_room st room
    let m : HMsg := ⟨room, sess.username.getD "", text, ts⟩
    let st2 := add_history st1 room m
    ⟨st2, sess, broadcast st2 room (OutMsg.message m), false⟩

/-- The "dm" branch: unknown or absent target is an error, disconnected
target is an error, else unicast plus an echo to the sender. -/
def handleDm (st : ServerState) (sess : Session) (d : ClientMsg) : StepResult :=
  let text := d.text.getD ""
  if truthy d.toUser = false ∨ (dlookup st.users (d.toUser.getD "")).isNone then
    ⟨st, sess, [(sess.wsId, OutMsg.error "user not found")], false⟩
  else
    match (dlookup st.users (d.toUser.getD "")).bind User.ws with
    | none => ⟨st, sess, [(sess.wsId, OutMsg.error "user offline")], false⟩
    | some w =>
      ⟨st, sess,
        [(w, OutMsg.dm (sess.username.getD "") text),
         (sess.wsId, OutMsg.dm_sent (d.toUser.getD "") text)], false⟩

/-- The "createroom" branch: blank name or an existing room is an error,
else create the room with the caller as admin and sole member. -/
def handleCreateroom (st : ServerState) (sess : Session) (d : ClientMsg) :
    StepResult :=
  if truthy d.room = false ∨ pyStrip (d.room.getD "") = "" then
    ⟨st, sess, [(sess.wsId, OutMsg.error "room name required")], false⟩
  else
    let room := pyStrip (d.room.getD "")
    if (dlookup st.rooms room).isSome then
      ⟨st, sess, [(sess.wsId, OutMsg.error "room already exists")], false⟩
    else
      let oj := tokenToBool (d.open_join.getD (BoolToken.b true)) true
      let vis := tokenToBool (d.visible.getD (BoolToken.b true)) true
      let uname := sess.username.getD ""
      let st1 : ServerState :=
        { st with
          rooms := dinsert st.rooms room ⟨some uname, oj, vis, [uname], [], false⟩,
          history :=
            if (dlookup st.history room).isSome then st.history
            else dinsert st.history room [] }
      ⟨st1, sess, [(sess.wsId, OutMsg.room_created room)], true⟩

/-- The "editroom" branch: unknown room or non-admin caller is an error;
unparsable or absent flags keep the prior value; members/pending untouched. -/
def handleEditroom (st : ServerState) (sess : Session) (d : ClientMsg) :
    StepResult :=
  let room := d.room.getD ""
  if truthy d.room = false ∨ (dlookup st.rooms room).isNone then
    ⟨st, sess, [(sess.wsId, OutMsg.error "room not found")], false⟩
  else
    let rinfo := (dlookup st.rooms room).getD defaultRoom
    if rinfo.admin ≠ some (sess.username.getD "") then
      ⟨st, sess, [(sess.wsId, OutMsg.error "only admin can edit")], false⟩
    else
      let oj := tokenToBool (d.open_join.getD (BoolToken.b rinfo.open_join))
        rinfo.open_join
      let vis := tokenToBool (d.visible.getD (BoolToken.b rinfo.visible))
        rinfo.visible
      let st1 := updateRoom st room
        (fun r => ⟨r.admin, oj, vis, r.members, r.pending, r.shutdown⟩)
      ⟨st1, sess, [(sess.wsId, OutMsg.room_updated room)], true⟩

/-- The "join" branch: unknown room or a shutdown room is an error; an
open room admits the caller at once with a join broadcast; a closed room
puts the caller in pending, pings the admin when connected and acks the
caller.  Both successful paths persist. -/
def handleJoin (st : ServerState) (sess : Session) (d : ClientMsg) : StepResult :=
  let room := d.room.getD ""
  if truthy d.room = false ∨ (dlookup st.rooms room).isNone then
    ⟨st, sess, [(sess.wsId, OutMsg.error "room not found")], false⟩
  else
    let rinfo := (dlookup st.rooms room).getD defaultRoom
    let uname := sess.username.getD ""
    if rinfo.shutdown then
      ⟨st, sess, [(sess.wsId, OutMsg.error "room is shutdown")], false⟩
    else if rinfo.open_join then
      let st1 := updateRoom st room
        (fun r => ⟨r.admin, r.open_join, r.visible, setAdd r.members uname,
          r.pending, r.shutdown⟩)
      ⟨st1, sess,
        (sess.wsId, OutMsg.joined room) ::
          broadcast st1 room (OutMsg.room_join room uname),
        true⟩
    else
      let st1 := updateRoom st room
        (fun r => ⟨r.admin, r.open_join, r.visible, r.members,
          setAdd r.pending uname, r.shutdown⟩)
      let adminWs := rinfo.admin.bind (fun a => (dlookup st1.users a).bind User.ws)
      ⟨st1, sess,
        (match adminWs with
         | some w => [(w, OutMsg.join_request room uname)]
         | none => []) ++ [(sess.wsId, OutMsg.request_ack room)],
        true⟩

/-- The "approve" branch: unknown room, non-admin caller or a user not in
pending is an error; else move the user pending → members and notify the
user when connected. -/
def handleApprove (st : ServerState) (sess : Session) (d : ClientMsg) : StepResult :=
  let room := d.room.getD ""
  if truthy d.room = false ∨ (dlookup st.rooms room).isNone then
    ⟨st, sess, [(sess.wsId, OutMsg.error "room not found")], false⟩
  else
    let rinfo := (dlookup st.rooms room).getD defaultRoom
    if rinfo.admin ≠ some (sess.username.getD "") then
      ⟨st, sess, [(sess.wsId, OutMsg.error "only admin can approve")], false⟩
    else
      match d.user with
      | none => ⟨st, sess, [(sess.wsId, OutMsg.error "user not pending")], false⟩
      | some us =>
        if us ∈ rinfo.pending then
          let st1 := updateRoom st room
            (fun r => ⟨r.admin, r.open_join, r.visible, setAdd r.members us,
              setDiscard r.pending us, r.shutdown⟩)
          ⟨st1, sess,
            (match (dlookup st1.users us).bind User.ws with
             | some w => [(w, OutMsg.joined room)]
             | none => []),
            true⟩
        else
          ⟨st, sess, [(sess.wsId, OutMsg.error "user not pending")], false⟩

/-- The "deny" branch: unknown room or non-admin caller is an error; else
discard the user from pending (a no-op when absent) and persist.  No
reply is sent. -/
def handleDeny (st : ServerState) (sess : Session) (d : ClientMsg) : StepResult :=
  let room := d.room.getD ""
  if truthy d.room = false ∨ (dlookup st.rooms room).isNone then
    ⟨st, sess, [(sess.wsId, OutMsg.error "room not found")], false⟩
  else
    let rinfo := (dlookup st.rooms room).getD defaultRoom
    if rinfo.admin ≠ some (sess.username.getD "") then
      ⟨st, sess, [(sess.wsId, OutMsg.error "only admin can deny")], false⟩
    else
      let st1 :=
        match d.user with
        | none => st
        | some us =>
          updateRoom st room
            (fun r => ⟨r.admin, r.open_join, r.visible, r.members,
              setDiscard r.pending us, r.shutdown⟩)
      ⟨st1, sess, [], true⟩

/-- The "rooms" branch: list every visible room's projection. -/
def handleRooms (st : ServerState) (sess : Session) : StepResult :=
  ⟨st, sess,
    [(sess.wsId, OutMsg.rooms_list (st.rooms.filterMap
      (fun p =>
        if p.2.visible then some (p.1, p.2.admin, p.2.open_join, p.2.visible)
        else none)))],
    false⟩

/-- The "who" branch: unknown room is an error, else the members with
their status/activity projections. -/
def handleWho (st : ServerState) (sess : Session) (d : ClientMsg) : StepResult :=
  let room := pyOr (d.room.getD sess.current_room) sess.current_room
  match dlookup st.rooms room with
  | none => ⟨st, sess, [(sess.wsId, OutMsg.error "room not found")], false⟩
  | some rinfo =>
    ⟨st, sess,
      [(sess.wsId, OutMsg.presence room (rinfo.members.map
        (fun u =>
          (u, ((dlookup st.users u).map User.status).getD "offline",
            ((dlookup st.users u).map User.activity).getD ""))))],
      false⟩

/-- The "typing" branch: add or discard the caller in the room's typing
set and broadcast the resulting set. -/
def handleTyping (st : ServerState) (sess : Session) (d : ClientMsg) : StepResult :=
  let room := pyOr (d.room.getD sess.current_room) sess.current_room
  let state := d.state.getD true
  let uname := sess.username.getD ""
  let ty0 := (dlookup st.typing room).getD []
  let ty1 := if state then setAdd ty0 uname else setDiscard ty0 uname
  let st1 : ServerState := { st with typing := dinsert st.typing room ty1 }
  ⟨st1, sess, broadcast st1 room (OutMsg.typing room ty1), false⟩

/-- The "history" branch: the room's current log, [] when it has none. -/
def handleHistoryReq (st : ServerState) (sess : Session) (d : ClientMsg) :
    StepResult :=
  let room := pyOr (d.room.getD sess.current_room) sess.current_room
  ⟨st, sess,
    [(sess.wsId, OutMsg.history room ((dlookup st.history room).getD []))], false⟩

/-- The "shutdown" branch: unknown room or non-admin caller is an error;
else set the terminal flag, broadcast a notice and persist. -/
def handleShutdown (st : ServerState) (sess : Session) (d : ClientMsg) : StepResult :=
  let room := d.room.getD ""
  if truthy d.room = false ∨ (dlookup st.rooms room).isNone then
    ⟨st, sess, [(sess.wsId, OutMsg.error "room not found")], false⟩
  else
    let rinfo := (dlookup st.rooms room).getD defaultRoom
    if rinfo.admin ≠ some (sess.username.getD "") then
      ⟨st, sess, [(sess.wsId, OutMsg.error "only admin can shutdown")], false⟩
    else
      let st1 := updateRoom st room
        (fun r => ⟨r.admin, r.open_join, r.visible, r.members, r.pending, true⟩)
      ⟨st1, sess,
        broadcast st1 room (OutMsg.info ("Room " ++ room ++ " is shutdown by admin")),
        true⟩

/-- How the unknown-command error renders the discriminator (None prints
as the Python literal). -/
def typeName : Option String → String
  | none => "None"
  | some t => t

/-- The authenticated dispatch over the discriminator; an unmatched
discriminator reaches the trailing unknown-command error reply. -/
def dispatch (st : ServerState) (sess : Session) (ts : Nat) (d : ClientMsg) :
    StepResult :=
  if d.type = some "message" then handleMessage st sess ts d
  else if d.type = some "dm" then handleDm st sess d
  else if d.type = some "createroom" then handleCreateroom st sess d
  else if d.type = some "editroom" then handleEditroom st sess d
  else if d.type = some "join" then handleJoin st sess d
  else if d.type = some "approve" then handleApprove st sess d
  else if d.type = some "deny" then handleDeny st sess d
  else if d.type = some "rooms" then handleRooms st sess
  else if d.type = some "who" then handleWho st sess d
  else if d.type = some "typing" then handleTyping st sess d
  else if d.type = some "history" then handleHistoryReq st sess d
  else if d.type = some "shutdown" then handleShutdown st sess d
  else ⟨st, sess,
    [(sess.wsId, OutMsg.error ("unknown command " ++ typeName d.type))], false⟩

/-- Everything after the auth block: the auth gate rejects an
unauthenticated session with no state change; an authenticated one gets
its activity fields refreshed and the payload dispatched. -/
def afterAuth (st : ServerState) (sess : Session) (ts : Nat) (d : ClientMsg) :
    StepResult :=
  if sess.authed then dispatch (touchUser st sess ts d) sess ts d
  else
    ⟨st, sess,
      [(sess.wsId, OutMsg.error "Please authenticate first (/login or /register)")],
      false⟩

/-- Processing of one inbound frame by the handler loop: non-JSON input
is dropped silently; an auth payload runs the auth block (falling through
to the gate when its action is unrecognized); everything else runs
through the gate and dispatch. -/
def handleMsg (st : ServerState) (sess : Session) (ts : Nat) (raw : Inbound) :
    StepResult :=
  match raw with
  | Inbound.malformed => ⟨st, sess, [], false⟩
  | Inbound.parsed d =>
    if d.type = some "auth" then
      match authStep st sess ts d with
      | some r => r
      | none => afterAuth st sess ts d
    else afterAuth st sess ts d

/-- Connection prologue: ensure the general room and start unauthed with
current_room = "general" on the given ws handle. -/
def connectSession (st : ServerState) (w : Nat) : ServerState × Session :=
  (ensure_room st "general", ⟨none, false, "general", w⟩)

/-- Run one session's inbound frames in order at a fixed clock. -/
def runSession (st : ServerState) (sess : Session) (ts : Nat) :
    List Inbound → ServerState × Session
  | [] => (st, sess)
  | m :: rest =>
    let r := handleMsg st sess ts m
    runSession r.st r.sess ts rest

/-- The on-disk image: users.json (username → password only), rooms.json
(metadata with members/pending as lists) and history.json. -/
structure Disk where
  users : List (String × String)
  rooms : List (String × Room)
  history : List (String × List HMsg)
deriving DecidableEq, Repr

/-- persist(): dump passwords, room metadata (sets as lists) and history. -/
def persist (st : ServerState) : Disk :=
  ⟨st.users.map (fun p => (p.1, p.2.password)),
    st.rooms.map (fun p =>
      (p.1, ⟨p.2.admin, p.2.open_join, p.2.visible, p.2.members, p.2.pending,
        p.2.shutdown⟩)),
    st.history⟩

/-- restore() into a fresh state: accounts come back with default runtime
fields (no ws, zero last_active, offline, empty activity), rooms come
back as saved, history is truncated to HISTORY_LIMIT, typing starts
empty. -/
def restore (d : Disk) : ServerState :=
  ⟨d.users.map (fun p => (p.1, ⟨p.2, none, 0, "offline", ""⟩)),
    d.rooms.map (fun p =>
      (p.1, ⟨p.2.admin, p.2.open_join, p.2.visible, p.2.members, p.2.pending,
        p.2.shutdown⟩)),
    d.history.map (fun p => (p.1, p.2.take HISTORY_LIMIT)),
    []⟩

/-- One idle_checker visit to one account: recompute the presence tier
from connection liveness and last activity, and collect the
presence_update broadcasts (one per room the account is a member of)
fired when the tier changed. -/
def tickUser (st : ServerState) (username : String) (info : User) (ts : Nat) :
    User × List (String × OutMsg) :=
  match info.ws with
  | some _ =>
    if IDLE_TIMEOUT < ts - info.last_active then
      if info.status ≠ "idle" then
        (⟨info.password, info.ws, info.last_active, "idle", info.activity⟩,
          st.rooms.filterMap (fun p =>
            if username ∈ p.2.members then
              some (p.1, OutMsg.presence_update username "idle")
            else none))
      else (info, [])
    else
      if info.status ≠ "online" then
        (⟨info.password, info.ws, info.last_active, "online", info.activity⟩,
          st.rooms.filterMap (fun p =>
            if username ∈ p.2.members then
              some (p.1, OutMsg.presence_update username "online")
            else none))
      else (info, [])
  | none =>
    if info.status ≠ "offline" then
      (⟨info.password, info.ws, info.last_active, "offline", info.activity⟩, [])
    else (info, [])

/-- Test fixtures used by the concrete witnesses and counterexamples. -/
def emptyState : ServerState := ⟨[], [], [], []⟩

def blankMsg : ClientMsg :=
  ⟨none, none, none, none, none, none, none, none, none, none, none, none⟩

def authReq (action u p : String) : ClientMsg :=
  ⟨some "auth", some action, some u, some p, none, none, none, none, none, none,
    none, none⟩

def messageReq (r t : String) : ClientMsg :=
  ⟨some "message", none, none, none, some r, some t, none, none, none, none, none,
    none⟩

def createReq (r : String) (oj : Bool) : ClientMsg :=
  ⟨some "createroom", none, none, none, some r, none, none, none,
    some (BoolToken.b oj), some (BoolToken.b true), none, none⟩

def joinReq (r : String) : ClientMsg :=
  ⟨some "join", none, none, none, some r, none, none, none, none, none, none, none⟩

def approveReq (r u : String) : ClientMsg :=
  ⟨some "approve", none, none, none, some r, none, none, some u, none, none, none,
    none⟩

def denyReq (r u : String) : ClientMsg :=
  ⟨some "deny", none, none, none, some r, none, none, some u, none, none, none, none⟩

def msgs205 : List HMsg := (List.range 205).map (fun i => ⟨"r", "u", "", i⟩)

/-- A small live state for witnesses: alice online on ws 5, only the
general room. -/
def demoState : ServerState :=
  ⟨[("alice", ⟨"pw", some 5, 0, "online", ""⟩)], [("general", defaultRoom)],
    [("general", [])], []⟩

def demoSess : Session := ⟨some "alice", true, "general", 5⟩

/-- members ∩ pending = ∅ for one room. -/
def roomDisjoint (r : Room) : Prop :=
  ∀ u, u ∈ r.members → u ∉ r.pending

/-- members ∩ pending = ∅ for every room of the registry. -/
def stateDisjoint (st : ServerState) : Prop :=
  ∀ p ∈ st.rooms, roomDisjoint p.2

/-- The three-step trace refuting C1 as stated: register alice, create a
closed room "r" (alice is admin and sole member), then alice sends a
join request for "r". -/
def c1trace : ServerState × Session :=
  runSession (connectSession emptyState 0).1 (connectSession emptyState 0).2 100
    [Inbound.parsed (authReq "register" "alice" "pw"),
     Inbound.parsed (createReq "r" false),
     Inbound.parsed (joinReq "r")]

/-- Concrete state exercising the amended C1: bob (not a member) join
requests the closed room "vip". -/
def vipState : ServerState :=
  ⟨[("alice", ⟨"pw", some 0, 0, "online", ""⟩),
    ("bob", ⟨"pw2", some 1, 0, "online", ""⟩)],
   [("general", defaultRoom),
    ("vip", ⟨some "alice", false, true, ["alice"], [], false⟩)],
   [("general", []), ("vip", [])], []⟩

def bobSess : Session := ⟨some "bob", true, "general", 1⟩

def aliceSess : Session := ⟨some "alice", true, "general", 0⟩

/-- A state with a shutdown room "dead" whose admin alice is a member,
and a user bob pending there. -/
def shutState : ServerState :=
  ⟨[("alice", ⟨"pw", some 0, 0, "online", ""⟩),
    ("bob", ⟨"pw2", some 1, 0, "online", ""⟩)],
   [("general", defaultRoom),
    ("dead", ⟨some "alice", false, true, ["alice"], ["bob"], true⟩)],
   [("general", []), ("dead", [])], []⟩

/-- The discriminators the dispatcher recognizes. -/
def recognizedList : List String :=
  ["auth", "message", "dm", "createroom", "editroom", "join", "approve", "deny",
   "rooms", "who", "typing", "history", "shutdown"]

/-- Whether a payload's discriminator reaches a handler (a missing or
non-listed type falls to the trailing unknown-command reply). -/
def recognized : Option String → Bool
  | none => false
  | some s => decide (s ∈ recognizedList)

/-- A registered account with no live connection, for the login
counterexample. -/
def offlineState : ServerState :=
  ⟨[("alice", ⟨"pw", none, 0, "offline", ""⟩)], [("general", defaultRoom)],
    [("general", [])], []⟩

/-! ### Basic lemmas about the dict and set embeddings -/

theorem dlookup_dinsert_self {α : Type} (l : List (String × α)) (k : String) (v : α) :
    dlookup (dinsert l k v) k = some v := by
  induction l with
  | nil => simp [dinsert, dlookup]
  | cons p rest ih =>
    obtain ⟨k2, v2⟩ := p
    by_cases h : k2 = k
    · simp [dinsert, dlookup, h]
    · simp [dinsert, dlookup, h, ih]

theorem dlookup_dinsert_ne {α : Type} (l : List (String × α)) (k k2 : String) (v : α)
    (h : k2 ≠ k) : dlookup (dinsert l k v) k2 = dlookup l k2 := by
  induction l with
  | nil => simp [dinsert, dlookup, Ne.symm h]
  | cons p rest ih =>
    obtain ⟨ka, va⟩ := p
    by_cases ha : ka = k
    · subst ha; simp [dinsert, dlookup, Ne.symm h]
    · simp [dinsert, dlookup, ha, ih]

theorem dlookup_cons {α : Type} (x : String × α) (xs : List (String × α))
    (k : String) :
    dlookup (x :: xs) k = if x.1 = k then some x.2 else dlookup xs k := by
  obtain ⟨a, b⟩ := x
  rfl

theorem dlookup_mapIf {α : Type} (l : List (String × α)) (room k : String)
    (f : α → α) :
    dlookup (l.map (fun p => if p.1 = room then (p.1, f p.2) else p)) k =
      if k = room then (dlookup l k).map f else dlookup l k := by
  induction l with
  | nil => simp [dlookup]
  | cons p rest ih =>
    obtain ⟨kp, vp⟩ := p
    by_cases hp : kp = room
    · subst hp
      by_cases hk : kp = k
      · subst hk
        simp [List.map_cons, dlookup_cons, ih]
      · simp [List.map_cons, dlookup_cons, hk, Ne.symm hk, ih]
    · by_cases hk : kp = k
      · subst hk
        simp [List.map_cons, dlookup_cons, hp, ih]
      · simp [List.map_cons, dlookup_cons, hp, hk, ih]

theorem dlookup_updateRoom (st : ServerState) (room k : String) (f : Room → Room) :
    dlookup (updateRoom st room f).rooms k =
      if k = room then (dlookup st.rooms k).map f else dlookup st.rooms k :=
  dlookup_mapIf st.rooms room k f

theorem dlookup_updateUser (st : ServerState) (u k : String) (f : User → User) :
    dlookup (updateUser st u f).users k =
      if k = u then (dlookup st.users k).map f else dlookup st.users k :=
  dlookup_mapIf st.users u k f

theorem mem_setAdd {s : List String} {x y : String} :
    y ∈ setAdd s x ↔ y ∈ s ∨ y = x := by
  by_cases h : x ∈ s
  · constructor
    · intro hy; exact Or.inl (by simpa [setAdd, h] using hy)
    · rintro (hy | rfl)
      · simpa [setAdd, h] using hy
      · simp [setAdd, h]
  · simp [setAdd, h]

theorem mem_setDiscard {s : List String} {x y : String} :
    y ∈ setDiscard s x ↔ y ∈ s ∧ y ≠ x := by
  simp [setDiscard]

/-! ### Frame lemmas: touchUser only rewrites user runtime fields -/

theorem touchUser_rooms (st : ServerState) (sess : Session) (ts : Nat)
    (d : ClientMsg) : (touchUser st sess ts d).rooms = st.rooms := by
  unfold touchUser
  by_cases h : truthy sess.username <;> simp [h, updateUser]

theorem touchUser_history (st : ServerState) (sess : Session) (ts : Nat)
    (d : ClientMsg) : (touchUser st sess ts d).history = st.history := by
  unfold touchUser
  by_cases h : truthy sess.username <;> simp [h, updateUser]

theorem touchUser_typing (st : ServerState) (sess : Session) (ts : Nat)
    (d : ClientMsg) : (touchUser st sess ts d).typing = st.typing := by
  unfold touchUser
  by_cases h : truthy sess.username <;> simp [h, updateUser]

theorem touchUser_ws (st : ServerState) (sess : Session) (ts : Nat)
    (d : ClientMsg) (a : String) :
    ((dlookup (touchUser st sess ts d).users a).bind User.ws) =
      (dlookup st.users a).bind User.ws := by
  unfold touchUser
  by_cases h : truthy sess.username
  · rw [if_pos h, dlookup_updateUser]
    by_cases ha : a = sess.username.getD ""
    · rw [if_pos ha]
      cases h2 : dlookup st.users a <;> simp [h2]
    · rw [if_neg ha]
  · rw [if_neg h]

theorem persist_touchUser (st : ServerState) (sess : Session) (ts : Nat)
    (d : ClientMsg) : persist (touchUser st sess ts d) = persist st := by
  unfold touchUser
  by_cases h : truthy sess.username
  · rw [if_pos h]
    unfold persist updateUser
    dsimp only
    rw [List.map_map]
    congr 1
    refine List.map_congr_left (fun p _ => ?_)
    by_cases hp : p.1 = sess.username.getD "" <;> simp [Function.comp, hp]
  · rw [if_neg h]

/-! ### Claim theorems -/

/-- Claim C5: restore ∘ persist reproduces credentials, room metadata,
membership and pending exactly, reproduces history truncated to the
configured bound, and resets every account's runtime fields (no ws,
zero last_active, offline, empty activity); typing starts empty. -/
theorem C5_round_trip (st : ServerState) :
    (restore (persist st)).rooms = st.rooms ∧
    (restore (persist st)).users =
      st.users.map (fun p => (p.1, ⟨p.2.password, none, 0, "offline", ""⟩)) ∧
    (restore (persist st)).history =
      st.history.map (fun p => (p.1, p.2.take HISTORY_LIMIT)) ∧
    (restore (persist st)).typing = [] := by
  refine ⟨?_, ?_, rfl, rfl⟩
  · show List.map _ (List.map _ st.rooms) = st.rooms
    rw [List.map_map]
    exact List.map_id st.rooms
  · show List.map _ (List.map _ st.users) = List.map _ st.users
    rw [List.map_map]
    rfl

/-! ### History bound (C4) -/

theorem foldl_add_history_list (msgs : List HMsg) :
    List.foldl add_history_list [] msgs =
      msgs.drop (msgs.length - HISTORY_LIMIT) := by
  induction msgs using List.reverseRecOn with
  | nil => rfl
  | append_singleton l m ih =>
    have hH : HISTORY_LIMIT = 200 := rfl
    rw [List.foldl_append, List.foldl_cons, List.foldl_nil, ih]
    unfold add_history_list
    have hlen : (l.drop (l.length - HISTORY_LIMIT) ++ [m]).length =
        l.length - (l.length - HISTORY_LIMIT) + 1 := by
      simp
    by_cases hn : l.length < HISTORY_LIMIT
    · rw [if_neg (by rw [hlen]; omega)]
      have h0 : l.length - HISTORY_LIMIT = 0 := by omega
      have h1 : (l ++ [m]).length - HISTORY_LIMIT = 0 := by
        simp only [List.length_append, List.length_cons, List.length_nil]
        omega
      rw [h0, h1, List.drop_zero, List.drop_zero]
    · rw [if_pos (by rw [hlen]; omega)]
      rw [List.drop_append_eq_append_drop, List.drop_append_eq_append_drop,
        List.drop_drop]
      simp only [List.length_drop, List.length_append, List.length_cons,
        List.length_nil, Nat.zero_add]
      have e1 : l.length - HISTORY_LIMIT + 1 = l.length + 1 - HISTORY_LIMIT := by
        omega
      have e2 : 1 - (l.length - (l.length - HISTORY_LIMIT)) =
          l.length + 1 - HISTORY_LIMIT - l.length := by omega
      rw [e1, e2]

theorem add_history_fold (r : String) (msgs : List HMsg) :
    ∀ st : ServerState,
      (dlookup (List.foldl (fun s mm => add_history s r mm) st msgs).history r).getD [] =
        List.foldl add_history_list ((dlookup st.history r).getD []) msgs := by
  induction msgs with
  | nil => intro st; rfl
  | cons m rest ih =>
    intro st
    rw [List.foldl_cons, List.foldl_cons, ih]
    congr 1
    unfold add_history
    dsimp only
    rw [dlookup_dinsert_self]
    rfl

/-- Claim C4: after any sequence of appends into a room whose history
starts empty, the room's history is exactly the most recent
min(total, HISTORY_LIMIT) messages in send order (strict FIFO, oldest
evicted first). -/
theorem C4_history_fifo (st : ServerState) (r : String) (msgs : List HMsg)
    (h0 : (dlookup st.history r).getD [] = []) :
    (dlookup (List.foldl (fun s mm => add_history s r mm) st msgs).history r).getD []
        = msgs.drop (msgs.length - HISTORY_LIMIT) ∧
      ((dlookup (List.foldl (fun s mm => add_history s r mm) st msgs).history r).getD
          []).length = min msgs.length HISTORY_LIMIT := by
  have h1 := add_history_fold r msgs st
  rw [h0, foldl_add_history_list] at h1
  refine ⟨h1, ?_⟩
  rw [h1, List.length_drop]
  have hH : HISTORY_LIMIT = 200 := rfl
  omega

/-- Witness for C4 at the spec's own example: 205 appends into an empty
room retain exactly the last 200 in order. -/
theorem C4_history_fifo_witness :
    (dlookup emptyState.history "r").getD [] = [] ∧
    ((dlookup (List.foldl (fun s mm => add_history s "r" mm) emptyState
          msgs205).history "r").getD []
        = msgs205.drop (msgs205.length - HISTORY_LIMIT) ∧
      ((dlookup (List.foldl (fun s mm => add_history s "r" mm) emptyState
            msgs205).history "r").getD []).length = min msgs205.length HISTORY_LIMIT) :=
  ⟨rfl, C4_history_fifo emptyState "r" msgs205 rfl⟩

theorem handleMsg_unauth_gate (st : ServerState) (sess : Session) (ts : Nat)
    (d : ClientMsg) (hna : sess.authed = false) (ht : d.type ≠ some "auth") :
    handleMsg st sess ts (Inbound.parsed d) =
      ⟨st, sess,
        [(sess.wsId, OutMsg.error "Please authenticate first (/login or /register)")],
        false⟩ := by
  simp [handleMsg, afterAuth, ht, hna]

/-- Claim C9: an unauthenticated session sending any request whose
discriminator is not "auth" receives exactly the auth-required error and
the state, session and persistence are untouched. -/
theorem C9_auth_gate (st : ServerState) (sess : Session) (ts : Nat)
    (d : ClientMsg) (hna : sess.authed = false) (ht : d.type ≠ some "auth") :
    handleMsg st sess ts (Inbound.parsed d) =
      ⟨st, sess,
        [(sess.wsId, OutMsg.error "Please authenticate first (/login or /register)")],
        false⟩ :=
  handleMsg_unauth_gate st sess ts d hna ht

/-- Witness for C9: a fresh unauthenticated session sending a room
message is rejected with the auth-required error and nothing changes. -/
theorem C9_auth_gate_witness :
    (⟨none, false, "general", 7⟩ : Session).authed = false ∧
    (messageReq "general" "hi").type ≠ some "auth" ∧
    handleMsg emptyState ⟨none, false, "general", 7⟩ 5
        (Inbound.parsed (messageReq "general" "hi")) =
      ⟨emptyState, ⟨none, false, "general", 7⟩,
        [(7, OutMsg.error "Please authenticate first (/login or /register)")],
        false⟩ :=
  ⟨rfl, by decide,
    C9_auth_gate emptyState ⟨none, false, "general", 7⟩ 5 (messageReq "general" "hi")
      rfl (by decide)⟩

/-! ### Step-function reduction lemmas -/

theorem handleMsg_parsed (st : ServerState) (sess : Session) (ts : Nat)
    (d : ClientMsg) :
    handleMsg st sess ts (Inbound.parsed d) =
      if d.type = some "auth" then
        match authStep st sess ts d with
        | some r => r
        | none => afterAuth st sess ts d
      else afterAuth st sess ts d := rfl

theorem handleMsg_not_auth (st : ServerState) (sess : Session) (ts : Nat)
    (d : ClientMsg) (h : d.type ≠ some "auth") :
    handleMsg st sess ts (Inbound.parsed d) = afterAuth st sess ts d := by
  rw [handleMsg_parsed, if_neg h]

theorem afterAuth_authed (st : ServerState) (sess : Session) (ts : Nat)
    (d : ClientMsg) (h : sess.authed = true) :
    afterAuth st sess ts d = dispatch (touchUser st sess ts d) sess ts d := by
  unfold afterAuth
  rw [if_pos h]

theorem dispatch_message (st : ServerState) (sess : Session) (ts : Nat)
    (d : ClientMsg) (h : d.type = some "message") :
    dispatch st sess ts d = handleMessage st sess ts d := by
  unfold dispatch
  simp [h]

theorem dispatch_join (st : ServerState) (sess : Session) (ts : Nat)
    (d : ClientMsg) (h : d.type = some "join") :
    dispatch st sess ts d = handleJoin st sess d := by
  unfold dispatch
  simp [h]

theorem dispatch_approve (st : ServerState) (sess : Session) (ts : Nat)
    (d : ClientMsg) (h : d.type = some "approve") :
    dispatch st sess ts d = handleApprove st sess d := by
  unfold dispatch
  simp [h]

theorem dispatch_deny (st : ServerState) (sess : Session) (ts : Nat)
    (d : ClientMsg) (h : d.type = some "deny") :
    dispatch st sess ts d = handleDeny st sess d := by
  unfold dispatch
  simp [h]

/-! ### Frame lemmas for ensure_room / add_history / broadcast -/

theorem add_history_rooms (st : ServerState) (r : String) (m : HMsg) :
    (add_history st r m).rooms = st.rooms := rfl

theorem add_history_dlookup_self (st : ServerState) (r : String) (m : HMsg) :
    dlookup (add_history st r m).history r =
      some (add_history_list ((dlookup st.history r).getD []) m) := by
  unfold add_history
  dsimp only
  exact dlookup_dinsert_self st.history r _

theorem ensure_room_rooms_absent (st : ServerState) (room : String)
    (h : dlookup st.rooms room = none) :
    (ensure_room st room).rooms = dinsert st.rooms room defaultRoom := by
  unfold ensure_room
  rw [h]
  rfl

theorem ensure_room_history_absent (st : ServerState) (room : String)
    (h : dlookup st.rooms room = none) (hh : dlookup st.history room = none) :
    (ensure_room st room).history = dinsert st.history room [] := by
  unfold ensure_room
  rw [h, hh]
  rfl

theorem ensure_room_present (st : ServerState) (room : String)
    (h : (dlookup st.rooms room).isSome) : ensure_room st room = st := by
  unfold ensure_room
  rw [if_pos h]

theorem broadcast_empty_members (st : ServerState) (room : String) (m : OutMsg)
    (rinfo : Room) (h : dlookup st.rooms room = some rinfo)
    (hm : rinfo.members = []) : broadcast st room m = [] := by
  unfold broadcast
  rw [h]
  dsimp only
  rw [hm]
  rfl

/-- Claim C10: an authenticated message to a nonexistent room implicitly
creates the room with no admin, open_join, visible, no members and no
pending; the sender is not made a member, the broadcast reaches no
connection, yet the message lands in the new room's history.  (The path
also never persists.) -/
theorem C10_implicit_room (st : ServerState) (sess : Session) (ts : Nat)
    (R t : String) (hauth : sess.authed = true) (hR : R ≠ "")
    (hroom : dlookup st.rooms R = none) (hhist : dlookup st.history R = none)
    (htext : pyStrip t ≠ "/help") :
    dlookup (handleMsg st sess ts (Inbound.parsed (messageReq R t))).st.rooms R =
        some ⟨none, true, true, [], [], false⟩ ∧
      dlookup (handleMsg st sess ts (Inbound.parsed (messageReq R t))).st.history R =
        some [⟨R, sess.username.getD "", t, ts⟩] ∧
      (handleMsg st sess ts (Inbound.parsed (messageReq R t))).sends = [] ∧
      (handleMsg st sess ts (Inbound.parsed (messageReq R t))).persisted = false := by
  rw [handleMsg_not_auth st sess ts (messageReq R t) (by simp [messageReq]),
    afterAuth_authed st sess ts (messageReq R t) hauth,
    dispatch_message _ sess ts (messageReq R t) rfl]
  have h1 : dlookup (touchUser st sess ts (messageReq R t)).rooms R = none := by
    rw [touchUser_rooms]; exact hroom
  have h2 : dlookup (touchUser st sess ts (messageReq R t)).history R = none := by
    rw [touchUser_history]; exact hhist
  have hpy : pyOr R "general" = R := by
    unfold pyOr
    rw [if_neg hR]
  unfold handleMessage
  simp only [show (messageReq R t).text = some t from rfl,
    show (messageReq R t).room = some R from rfl, Option.getD_some]
  rw [if_neg htext, hpy]
  have hrooms :
      dlookup (ensure_room (touchUser st sess ts (messageReq R t)) R).rooms R =
        some defaultRoom := by
    rw [ensure_room_rooms_absent _ _ h1]
    exact dlookup_dinsert_self _ _ _
  have hhistlk :
      dlookup (ensure_room (touchUser st sess ts (messageReq R t)) R).history R =
        some [] := by
    rw [ensure_room_history_absent _ _ h1 h2]
    exact dlookup_dinsert_self _ _ _
  refine ⟨?_, ?_, ?_, rfl⟩
  · rw [add_history_rooms, hrooms]
    rfl
  · rw [add_history_dlookup_self, hhistlk]
    rfl
  · refine broadcast_empty_members _ R _ defaultRoom ?_ rfl
    rw [add_history_rooms, hrooms]

/-- Witness for C10: alice messages the absent room "newroom"; it is
created ownerless and open, nobody receives the broadcast, the history
holds the message, and nothing was persisted. -/
theorem C10_implicit_room_witness :
    dlookup demoState.rooms "newroom" = none ∧
    (dlookup (handleMsg demoState demoSess 50
          (Inbound.parsed (messageReq "newroom" "hello"))).st.rooms "newroom" =
        some ⟨none, true, true, [], [], false⟩ ∧
      dlookup (handleMsg demoState demoSess 50
          (Inbound.parsed (messageReq "newroom" "hello"))).st.history "newroom" =
        some [⟨"newroom", demoSess.username.getD "", "hello", 50⟩] ∧
      (handleMsg demoState demoSess 50
          (Inbound.parsed (messageReq "newroom" "hello"))).sends = [] ∧
      (handleMsg demoState demoSess 50
          (Inbound.parsed (messageReq "newroom" "hello"))).persisted = false) :=
  ⟨rfl, C10_implicit_room demoState demoSess 50 "newroom" "hello" rfl (by decide)
    rfl rfl (by decide)⟩

/-! ### Membership/pending disjointness (C1) -/

theorem stateDisjoint_of_rooms_eq (a b : ServerState) (h : a.rooms = b.rooms)
    (hd : stateDisjoint b) : stateDisjoint a := by
  intro p hp
  rw [h] at hp
  exact hd p hp

theorem stateDisjoint_updateRoom (st : ServerState) (room : String) (f : Room → Room)
    (hdisj : stateDisjoint st)
    (hf : ∀ p ∈ st.rooms, p.1 = room → roomDisjoint p.2 → roomDisjoint (f p.2)) :
    stateDisjoint (updateRoom st room f) := by
  intro q hq
  unfold updateRoom at hq
  dsimp only at hq
  rw [List.mem_map] at hq
  obtain ⟨p, hp, hpq⟩ := hq
  by_cases h : p.1 = room
  · rw [if_pos h] at hpq
    rw [← hpq]
    exact hf p hp h (hdisj p hp)
  · rw [if_neg h] at hpq
    rw [← hpq]
    exact hdisj p hp

theorem dlookup_eq_of_mem_nodup {α : Type} (l : List (String × α)) (p : String × α)
    (hnd : (l.map Prod.fst).Nodup) (hp : p ∈ l) : dlookup l p.1 = some p.2 := by
  induction l with
  | nil => cases hp
  | cons q rest ih =>
    rw [List.map_cons, List.nodup_cons] at hnd
    rcases List.mem_cons.mp hp with rfl | hmem
    · rw [dlookup_cons, if_pos rfl]
    · rw [dlookup_cons]
      by_cases hq : q.1 = p.1
      · exact absurd (hq ▸ List.mem_map_of_mem Prod.fst hmem) hnd.1
      · rw [if_neg hq]
        exact ih hnd.2 hmem

theorem roomDisjoint_approve (r : Room) (u : String) (h : roomDisjoint r) :
    roomDisjoint ⟨r.admin, r.open_join, r.visible, setAdd r.members u,
      setDiscard r.pending u, r.shutdown⟩ := by
  intro x hx hpend
  rw [mem_setDiscard] at hpend
  rcases mem_setAdd.mp hx with hxm | rfl
  · exact h x hxm hpend.1
  · exact hpend.2 rfl

theorem roomDisjoint_deny (r : Room) (u : String) (h : roomDisjoint r) :
    roomDisjoint ⟨r.admin, r.open_join, r.visible, r.members,
      setDiscard r.pending u, r.shutdown⟩ := by
  intro x hx hpend
  rw [mem_setDiscard] at hpend
  exact h x hx hpend.1

theorem handleApprove_disjoint (st : ServerState) (sess : Session) (d : ClientMsg)
    (hdisj : stateDisjoint st) : stateDisjoint (handleApprove st sess d).st := by
  unfold handleApprove
  dsimp only
  split
  · exact hdisj
  · split
    · exact hdisj
    · split
      · exact hdisj
      · split
        · apply stateDisjoint_updateRoom _ _ _ hdisj
          intro p _ _ hdp
          exact roomDisjoint_approve p.2 _ hdp
        · exact hdisj

theorem handleDeny_disjoint (st : ServerState) (sess : Session) (d : ClientMsg)
    (hdisj : stateDisjoint st) : stateDisjoint (handleDeny st sess d).st := by
  unfold handleDeny
  dsimp only
  split
  · exact hdisj
  · split
    · exact hdisj
    · split
      · exact hdisj
      · apply stateDisjoint_updateRoom _ _ _ hdisj
        intro p _ _ hdp
        exact roomDisjoint_deny p.2 _ hdp

theorem handleJoin_disjoint (st : ServerState) (sess : Session) (d : ClientMsg)
    (hdisj : stateDisjoint st) (hnd : (st.rooms.map Prod.fst).Nodup)
    (hprov : ∀ rinfo : Room, dlookup st.rooms (d.room.getD "") = some rinfo →
      (rinfo.open_join = true → sess.username.getD "" ∉ rinfo.pending) ∧
      (rinfo.open_join = false → sess.username.getD "" ∉ rinfo.members)) :
    stateDisjoint (handleJoin st sess d).st := by
  unfold handleJoin
  dsimp only
  cases heq : dlookup st.rooms (d.room.getD "") with
  | none =>
    have hcond : truthy d.room = false ∨ (none : Option Room).isNone = true :=
      Or.inr rfl
    rw [if_pos hcond]
    exact hdisj
  | some rinfo =>
    by_cases htr : truthy d.room = false
    · rw [if_pos (Or.inl htr)]
      exact hdisj
    · rw [if_neg (by simp [htr])]
      dsimp only [Option.getD_some]
      by_cases hsd : rinfo.shutdown = true
      · rw [if_pos hsd]
        exact hdisj
      · rw [if_neg hsd]
        by_cases hoj : rinfo.open_join = true
        · rw [if_pos hoj]
          dsimp only
          apply stateDisjoint_updateRoom _ _ _ hdisj
          intro p hp hkey hdp
          have hl := dlookup_eq_of_mem_nodup st.rooms p hnd hp
          rw [hkey, heq] at hl
          have hrp : rinfo = p.2 := Option.some.inj hl
          have hup : sess.username.getD "" ∉ p.2.pending :=
            hrp ▸ (hprov rinfo heq).1 hoj
          intro x hx hpend
          rcases mem_setAdd.mp hx with hxm | rfl
          · exact hdp x hxm hpend
          · exact hup hpend
        · rw [if_neg hoj]
          dsimp only
          apply stateDisjoint_updateRoom _ _ _ hdisj
          intro p hp hkey hdp
          have hl := dlookup_eq_of_mem_nodup st.rooms p hnd hp
          rw [hkey, heq] at hl
          have hrp : rinfo = p.2 := Option.some.inj hl
          have hum : sess.username.getD "" ∉ p.2.members :=
            hrp ▸ (hprov rinfo heq).2 (Bool.not_eq_true _ ▸ Bool.of_not_eq_true hoj)
          intro x hx hpend
          rcases mem_setAdd.mp hpend with hxp | rfl
          · exact hdp x hx hxp
          · exact hum hx

/-- Claim C1 (amended): approve-request and deny-request always preserve
members/pending disjointness, and join-room preserves it provided the
caller is not already pending in an open target room and not already a
member of a closed target room; without that proviso join-room violates
the invariant, so it is not maintained at all reachable states. -/
theorem C1_disjoint_amended (st : ServerState) (sess : Session) (ts : Nat)
    (d : ClientMsg) (hdisj : stateDisjoint st)
    (hnd : (st.rooms.map Prod.fst).Nodup) :
    ((d.type = some "approve" ∨ d.type = some "deny") →
      stateDisjoint (handleMsg st sess ts (Inbound.parsed d)).st) ∧
    (d.type = some "join" →
      (∀ rinfo : Room, dlookup st.rooms (d.room.getD "") = some rinfo →
        (rinfo.open_join = true → sess.username.getD "" ∉ rinfo.pending) ∧
        (rinfo.open_join = false → sess.username.getD "" ∉ rinfo.members)) →
      stateDisjoint (handleMsg st sess ts (Inbound.parsed d)).st) := by
  constructor
  · intro h
    have hna : d.type ≠ some "auth" := by
      rcases h with h | h <;> simp [h]
    rw [handleMsg_not_auth _ _ _ _ hna]
    unfold afterAuth
    by_cases ha : sess.authed = true
    · rw [if_pos ha]
      have hd2 : stateDisjoint (touchUser st sess ts d) :=
        stateDisjoint_of_rooms_eq _ _ (touchUser_rooms st sess ts d) hdisj
      rcases h with h | h
      · rw [dispatch_approve _ _ _ _ h]
        exact handleApprove_disjoint _ _ _ hd2
      · rw [dispatch_deny _ _ _ _ h]
        exact handleDeny_disjoint _ _ _ hd2
    · rw [if_neg ha]
      exact hdisj
  · intro h hprov
    have hna : d.type ≠ some "auth" := by simp [h]
    rw [handleMsg_not_auth _ _ _ _ hna]
    unfold afterAuth
    by_cases ha : sess.authed = true
    · rw [if_pos ha]
      rw [dispatch_join _ _ _ _ h]
      refine handleJoin_disjoint _ _ _
        (stateDisjoint_of_rooms_eq _ _ (touchUser_rooms st sess ts d) hdisj) ?_ ?_
      · rw [touchUser_rooms]
        exact hnd
      · rw [touchUser_rooms]
        exact hprov
    · rw [if_neg ha]
      exact hdisj

/-- Counterexample to C1 as stated: after a reachable three-operation
trace, room "r" has "alice" in members and in pending at once, so
join-room does not preserve members ∩ pending = ∅. -/
theorem C1_disjoint_counterexample :
    "alice" ∈ ((dlookup c1trace.1.rooms "r").getD defaultRoom).members ∧
      "alice" ∈ ((dlookup c1trace.1.rooms "r").getD defaultRoom).pending := by
  decide

/-- Witness for the amended C1 at a concrete closed-room state. -/
theorem C1_disjoint_amended_witness :
    stateDisjoint
      (handleMsg vipState bobSess 7 (Inbound.parsed (joinReq "vip"))).st :=
  (C1_disjoint_amended vipState bobSess 7 (joinReq "vip")
        (by unfold stateDisjoint roomDisjoint; decide) (by decide)).2 rfl
    (by
      intro rinfo h
      have hv : dlookup vipState.rooms ((joinReq "vip").room.getD "") =
          some (⟨some "alice", false, true, ["alice"], [], false⟩ : Room) := by
        decide
      rw [hv] at h
      obtain rfl := Option.some.inj h
      decide)

/-! ### Characterizations of join/approve on the closed-room paths -/

theorem updateRoom_users (st : ServerState) (room : String) (f : Room → Room) :
    (updateRoom st room f).users = st.users := rfl

theorem handleJoin_closed (st : ServerState) (sess : Session) (d : ClientMsg)
    (R : String) (rinfo : Room) (hdr : d.room = some R) (hR : R ≠ "")
    (hlk : dlookup st.rooms R = some rinfo) (hsd : rinfo.shutdown = false)
    (hoj : rinfo.open_join = false) :
    handleJoin st sess d =
      ⟨updateRoom st R (fun r => ⟨r.admin, r.open_join, r.visible, r.members,
          setAdd r.pending (sess.username.getD ""), r.shutdown⟩), sess,
        (match rinfo.admin.bind (fun a => (dlookup st.users a).bind User.ws) with
          | some w => [(w, OutMsg.join_request R (sess.username.getD ""))]
          | none => []) ++ [(sess.wsId, OutMsg.request_ack R)],
        true⟩ := by
  unfold handleJoin
  rw [hdr]
  dsimp only [Option.getD_some]
  rw [hlk]
  dsimp only [Option.getD_some]
  rw [if_neg (by simp [truthy, hR])]
  rw [if_neg (by simp [hsd])]
  rw [if_neg (by simp [hoj])]
  rfl

theorem handleJoin_shutdown_err (st : ServerState) (sess : Session) (d : ClientMsg)
    (R : String) (rinfo : Room) (hdr : d.room = some R) (hR : R ≠ "")
    (hlk : dlookup st.rooms R = some rinfo) (hsd : rinfo.shutdown = true) :
    handleJoin st sess d =
      ⟨st, sess, [(sess.wsId, OutMsg.error "room is shutdown")], false⟩ := by
  unfold handleJoin
  rw [hdr]
  dsimp only [Option.getD_some]
  rw [hlk]
  dsimp only [Option.getD_some]
  rw [if_neg (by simp [truthy, hR])]
  rw [if_pos hsd]

theorem handleApprove_success (st : ServerState) (sess : Session) (d : ClientMsg)
    (R B : String) (rinfo : Room) (hdr : d.room = some R) (hR : R ≠ "")
    (hdu : d.user = some B) (hlk : dlookup st.rooms R = some rinfo)
    (hadmin : rinfo.admin = some (sess.username.getD ""))
    (hpend : B ∈ rinfo.pending) :
    handleApprove st sess d =
      ⟨updateRoom st R (fun r => ⟨r.admin, r.open_join, r.visible,
          setAdd r.members B, setDiscard r.pending B, r.shutdown⟩), sess,
        (match (dlookup st.users B).bind User.ws with
          | some w => [(w, OutMsg.joined R)]
          | none => []), true⟩ := by
  unfold handleApprove
  rw [hdr]
  dsimp only [Option.getD_some]
  rw [hlk]
  dsimp only [Option.getD_some]
  rw [if_neg (by simp [truthy, hR])]
  rw [if_neg (by simp [hadmin])]
  rw [hdu]
  dsimp only
  rw [if_pos hpend]
  rfl

theorem handleApprove_not_pending (st : ServerState) (sess : Session) (d : ClientMsg)
    (R B : String) (rinfo : Room) (hdr : d.room = some R) (hR : R ≠ "")
    (hdu : d.user = some B) (hlk : dlookup st.rooms R = some rinfo)
    (hadmin : rinfo.admin = some (sess.username.getD ""))
    (hpend : B ∉ rinfo.pending) :
    handleApprove st sess d =
      ⟨st, sess, [(sess.wsId, OutMsg.error "user not pending")], false⟩ := by
  unfold handleApprove
  rw [hdr]
  dsimp only [Option.getD_some]
  rw [hlk]
  dsimp only [Option.getD_some]
  rw [if_neg (by simp [truthy, hR])]
  rw [if_neg (by simp [hadmin])]
  rw [hdu]
  dsimp only
  rw [if_neg hpend]

/-- Claim C3: the closed-room workflow.  A join on an existing room with
open_join = false and shutdown = false by a non-member B puts B in
pending and not in members, acks B, and notifies the admin's connection
when live; the admin's approve then moves B from pending to members and
notifies B's connection when live; approving the same user again fails
with the user-not-pending error. -/
theorem C3_closed_workflow (st0 : ServerState) (sessB sessA : Session)
    (ts1 ts2 ts3 : Nat) (R A B : String) (rinfo0 : Room)
    (hR : R ≠ "") (hlk : dlookup st0.rooms R = some rinfo0)
    (hsd : rinfo0.shutdown = false) (hoj : rinfo0.open_join = false)
    (hBauth : sessB.authed = true) (hB : sessB.username = some B)
    (hAauth : sessA.authed = true) (hA : sessA.username = some A)
    (hadmin : rinfo0.admin = some A) (hBm : B ∉ rinfo0.members) :
    ∃ rinfo1,
      dlookup (handleMsg st0 sessB ts1 (Inbound.parsed (joinReq R))).st.rooms R =
          some rinfo1 ∧
        B ∈ rinfo1.pending ∧ B ∉ rinfo1.members ∧
        (sessB.wsId, OutMsg.request_ack R) ∈
          (handleMsg st0 sessB ts1 (Inbound.parsed (joinReq R))).sends ∧
        (∀ w, (dlookup st0.users A).bind User.ws = some w →
          (w, OutMsg.join_request R B) ∈
            (handleMsg st0 sessB ts1 (Inbound.parsed (joinReq R))).sends) ∧
        ∃ rinfo2,
          dlookup (handleMsg (handleMsg st0 sessB ts1
                (Inbound.parsed (joinReq R))).st sessA ts2
              (Inbound.parsed (approveReq R B))).st.rooms R = some rinfo2 ∧
            B ∈ rinfo2.members ∧ B ∉ rinfo2.pending ∧
            (∀ w, (dlookup st0.users B).bind User.ws = some w →
              (w, OutMsg.joined R) ∈
                (handleMsg (handleMsg st0 sessB ts1
                    (Inbound.parsed (joinReq R))).st sessA ts2
                  (Inbound.parsed (approveReq R B))).sends) ∧
            (handleMsg (handleMsg (handleMsg st0 sessB ts1
                    (Inbound.parsed (joinReq R))).st sessA ts2
                  (Inbound.parsed (approveReq R B))).st sessA ts3
                (Inbound.parsed (approveReq R B))).sends =
              [(sessA.wsId, OutMsg.error "user not pending")] := by
  have hgetB : sessB.username.getD "" = B := by rw [hB]; rfl
  have hgetA : sessA.username.getD "" = A := by rw [hA]; rfl
  -- step 1: the join request
  have e1 : handleMsg st0 sessB ts1 (Inbound.parsed (joinReq R)) =
      handleJoin (touchUser st0 sessB ts1 (joinReq R)) sessB (joinReq R) := by
    rw [handleMsg_not_auth _ _ _ _ (by simp [joinReq]),
      afterAuth_authed _ _ _ _ hBauth, dispatch_join _ _ _ _ rfl]
  have hjoin := handleJoin_closed (touchUser st0 sessB ts1 (joinReq R)) sessB
    (joinReq R) R rinfo0 rfl hR (by rw [touchUser_rooms]; exact hlk) hsd hoj
  rw [e1, hjoin]
  dsimp only
  rw [hgetB]
  refine ⟨⟨rinfo0.admin, rinfo0.open_join, rinfo0.visible, rinfo0.members,
    setAdd rinfo0.pending B, rinfo0.shutdown⟩, ?_, ?_, ?_, ?_, ?_, ?_⟩
  · rw [dlookup_updateRoom, if_pos rfl, touchUser_rooms, hlk]
    rfl
  · exact mem_setAdd.mpr (Or.inr rfl)
  · exact hBm
  · exact List.mem_append_right _ (List.mem_singleton.mpr rfl)
  · intro w hw
    rw [hadmin]
    rw [show ((some A).bind fun a =>
        (dlookup (touchUser st0 sessB ts1 (joinReq R)).users a).bind User.ws) =
      (dlookup (touchUser st0 sessB ts1 (joinReq R)).users A).bind User.ws from rfl]
    rw [touchUser_ws, hw]
    exact List.mem_append_left _ (List.mem_singleton.mpr rfl)
  -- step 2: the approve
  · have hlk1 : dlookup (updateRoom (touchUser st0 sessB ts1 (joinReq R)) R
        (fun r => ⟨r.admin, r.open_join, r.visible, r.members,
          setAdd r.pending B, r.shutdown⟩)).rooms R =
        some ⟨rinfo0.admin, rinfo0.open_join, rinfo0.visible, rinfo0.members,
          setAdd rinfo0.pending B, rinfo0.shutdown⟩ := by
      rw [dlookup_updateRoom, if_pos rfl, touchUser_rooms, hlk]
      rfl
    have e2 : handleMsg (updateRoom (touchUser st0 sessB ts1 (joinReq R)) R
          (fun r => ⟨r.admin, r.open_join, r.visible, r.members,
            setAdd r.pending B, r.shutdown⟩)) sessA ts2
          (Inbound.parsed (approveReq R B)) =
        handleApprove (touchUser (updateRoom (touchUser st0 sessB ts1 (joinReq R)) R
            (fun r => ⟨r.admin, r.open_join, r.visible, r.members,
              setAdd r.pending B, r.shutdown⟩)) sessA ts2 (approveReq R B)) sessA
          (approveReq R B) := by
      rw [handleMsg_not_auth _ _ _ _ (by simp [approveReq]),
        afterAuth_authed _ _ _ _ hAauth, dispatch_approve _ _ _ _ rfl]
    have happrove := handleApprove_success
      (touchUser (updateRoom (touchUser st0 sessB ts1 (joinReq R)) R
        (fun r => ⟨r.admin, r.open_join, r.visible, r.members,
          setAdd r.pending B, r.shutdown⟩)) sessA ts2 (approveReq R B))
      sessA (approveReq R B) R B
      ⟨rinfo0.admin, rinfo0.open_join, rinfo0.visible, rinfo0.members,
        setAdd rinfo0.pending B, rinfo0.shutdown⟩ rfl hR rfl
      (by rw [touchUser_rooms]; exact hlk1)
      (by dsimp only; rw [hgetA]; exact hadmin)
      (mem_setAdd.mpr (Or.inr rfl))
    rw [e2, happrove]
    refine ⟨⟨rinfo0.admin, rinfo0.open_join, rinfo0.visible,
      setAdd rinfo0.members B, setDiscard (setAdd rinfo0.pending B) B,
      rinfo0.shutdown⟩, ?_, ?_, ?_, ?_, ?_⟩
    · rw [dlookup_updateRoom, if_pos rfl, touchUser_rooms, hlk1]
      rfl
    · exact mem_setAdd.mpr (Or.inr rfl)
    · intro hmem
      exact (mem_setDiscard.mp hmem).2 rfl
    · intro w hw
      rw [touchUser_ws, updateRoom_users, touchUser_ws, hw]
      exact List.mem_singleton.mpr rfl
    -- step 3: the repeated approve
    · have hlk2 : dlookup (updateRoom (touchUser (updateRoom
          (touchUser st0 sessB ts1 (joinReq R)) R
          (fun r => ⟨r.admin, r.open_join, r.visible, r.members,
            setAdd r.pending B, r.shutdown⟩)) sessA ts2 (approveReq R B)) R
          (fun r => ⟨r.admin, r.open_join, r.visible, setAdd r.members B,
            setDiscard r.pending B, r.shutdown⟩)).rooms R =
          some ⟨rinfo0.admin, rinfo0.open_join, rinfo0.visible,
            setAdd rinfo0.members B, setDiscard (setAdd rinfo0.pending B) B,
            rinfo0.shutdown⟩ := by
        rw [dlookup_updateRoom, if_pos rfl, touchUser_rooms, hlk1]
        rfl
      have e3 : handleMsg (updateRoom (touchUser (updateRoom
            (touchUser st0 sessB ts1 (joinReq R)) R
            (fun r => ⟨r.admin, r.open_join, r.visible, r.members,
              setAdd r.pending B, r.shutdown⟩)) sessA ts2 (approveReq R B)) R
            (fun r => ⟨r.admin, r.open_join, r.visible, setAdd r.members B,
              setDiscard r.pending B, r.shutdown⟩)) sessA ts3
            (Inbound.parsed (approveReq R B)) =
          handleApprove (touchUser (updateRoom (touchUser (updateRoom
              (touchUser st0 sessB ts1 (joinReq R)) R
              (fun r => ⟨r.admin, r.open_join, r.visible, r.members,
                setAdd r.pending B, r.shutdown⟩)) sessA ts2 (approveReq R B)) R
              (fun r => ⟨r.admin, r.open_join, r.visible, setAdd r.members B,
                setDiscard r.pending B, r.shutdown⟩)) sessA ts3 (approveReq R B))
            sessA (approveReq R B) := by
        rw [handleMsg_not_auth _ _ _ _ (by simp [approveReq]),
          afterAuth_authed _ _ _ _ hAauth, dispatch_approve _ _ _ _ rfl]
      rw [e3, handleApprove_not_pending
        (touchUser (updateRoom (touchUser (updateRoom
            (touchUser st0 sessB ts1 (joinReq R)) R
            (fun r => ⟨r.admin, r.open_join, r.visible, r.members,
              setAdd r.pending B, r.shutdown⟩)) sessA ts2 (approveReq R B)) R
            (fun r => ⟨r.admin, r.open_join, r.visible, setAdd r.members B,
              setDiscard r.pending B, r.shutdown⟩)) sessA ts3 (approveReq R B))
        sessA (approveReq R B) R B
        ⟨rinfo0.admin, rinfo0.open_join, rinfo0.visible,
          setAdd rinfo0.members B, setDiscard (setAdd rinfo0.pending B) B,
          rinfo0.shutdown⟩ rfl hR rfl
        (by rw [touchUser_rooms]; exact hlk2)
        (by dsimp only; rw [hgetA]; exact hadmin)
        (by intro hmem; exact (mem_setDiscard.mp hmem).2 rfl)]

/-- Witness for C3 at the concrete vip-room state: bob requests the
closed room "vip", alice approves, a second approve fails. -/
theorem C3_closed_workflow_witness :
    ∃ rinfo1,
      dlookup (handleMsg vipState bobSess 1 (Inbound.parsed (joinReq "vip"))).st.rooms
          "vip" = some rinfo1 ∧
        "bob" ∈ rinfo1.pending ∧ "bob" ∉ rinfo1.members ∧
        (bobSess.wsId, OutMsg.request_ack "vip") ∈
          (handleMsg vipState bobSess 1 (Inbound.parsed (joinReq "vip"))).sends ∧
        (∀ w, (dlookup vipState.users "alice").bind User.ws = some w →
          (w, OutMsg.join_request "vip" "bob") ∈
            (handleMsg vipState bobSess 1 (Inbound.parsed (joinReq "vip"))).sends) ∧
        ∃ rinfo2,
          dlookup (handleMsg (handleMsg vipState bobSess 1
                (Inbound.parsed (joinReq "vip"))).st aliceSess 2
              (Inbound.parsed (approveReq "vip" "bob"))).st.rooms "vip" =
              some rinfo2 ∧
            "bob" ∈ rinfo2.members ∧ "bob" ∉ rinfo2.pending ∧
            (∀ w, (dlookup vipState.users "bob").bind User.ws = some w →
              (w, OutMsg.joined "vip") ∈
                (handleMsg (handleMsg vipState bobSess 1
                    (Inbound.parsed (joinReq "vip"))).st aliceSess 2
                  (Inbound.parsed (approveReq "vip" "bob"))).sends) ∧
            (handleMsg (handleMsg (handleMsg vipState bobSess 1
                    (Inbound.parsed (joinReq "vip"))).st aliceSess 2
                  (Inbound.parsed (approveReq "vip" "bob"))).st aliceSess 3
                (Inbound.parsed (approveReq "vip" "bob"))).sends =
              [(aliceSess.wsId, OutMsg.error "user not pending")] :=
  C3_closed_workflow vipState bobSess aliceSess 1 2 3 "vip" "alice" "bob"
    ⟨some "alice", false, true, ["alice"], [], false⟩ (by decide) (by decide)
    rfl rfl rfl rfl rfl rfl rfl (by decide)

/-! ### Shutdown rooms (C7) -/

/-- Counterexample to C7 as stated: a message sent to the shutdown room
"dead" is still appended to its history (and approve still adds members,
see the amended theorem), so shutdown does not block all new activity. -/
theorem C7_shutdown_counterexample :
    ((dlookup shutState.rooms "dead").getD defaultRoom).shutdown = true ∧
      dlookup (handleMsg shutState aliceSess 9
          (Inbound.parsed (messageReq "dead" "hi"))).st.history "dead" =
        some [⟨"dead", "alice", "hi", 9⟩] := by
  decide

/-- Claim C7 (amended): a join attempt on a shutdown room fails with the
room-shutdown error and changes nothing but the caller's activity
bookkeeping (rooms, members and pending untouched); however shutdown
does not block other activity: send-room-message still appends to the
room's history, and approve-request still moves a pending user into
members. -/
theorem C7_shutdown_amended (st : ServerState) (sess : Session) (ts : Nat)
    (R : String) (rinfo : Room) (hR : R ≠ "")
    (hlk : dlookup st.rooms R = some rinfo) (hsd : rinfo.shutdown = true)
    (hauth : sess.authed = true) :
    handleMsg st sess ts (Inbound.parsed (joinReq R)) =
        ⟨touchUser st sess ts (joinReq R), sess,
          [(sess.wsId, OutMsg.error "room is shutdown")], false⟩ ∧
      (∀ t, pyStrip t ≠ "/help" →
        dlookup (handleMsg st sess ts
            (Inbound.parsed (messageReq R t))).st.history R =
          some (add_history_list ((dlookup st.history R).getD [])
            ⟨R, sess.username.getD "", t, ts⟩)) ∧
      (∀ B, rinfo.admin = some (sess.username.getD "") → B ∈ rinfo.pending →
        ∃ rinfo2,
          dlookup (handleMsg st sess ts
              (Inbound.parsed (approveReq R B))).st.rooms R = some rinfo2 ∧
            B ∈ rinfo2.members) := by
  refine ⟨?_, ?_, ?_⟩
  · rw [handleMsg_not_auth _ _ _ _ (by simp [joinReq]),
      afterAuth_authed _ _ _ _ hauth, dispatch_join _ _ _ _ rfl,
      handleJoin_shutdown_err _ sess (joinReq R) R rinfo rfl hR
        (by rw [touchUser_rooms]; exact hlk) hsd]
  · intro t htext
    rw [handleMsg_not_auth _ _ _ _ (by simp [messageReq]),
      afterAuth_authed _ _ _ _ hauth, dispatch_message _ _ _ _ rfl]
    have hpy : pyOr R "general" = R := by
      unfold pyOr
      rw [if_neg hR]
    unfold handleMessage
    simp only [show (messageReq R t).text = some t from rfl,
      show (messageReq R t).room = some R from rfl, Option.getD_some]
    rw [if_neg htext, hpy]
    have hens : ensure_room (touchUser st sess ts (messageReq R t)) R =
        touchUser st sess ts (messageReq R t) := by
      apply ensure_room_present
      rw [touchUser_rooms, hlk]
      rfl
    rw [hens]
    dsimp only
    rw [add_history_dlookup_self, touchUser_history]
  · intro B hadmin hpend
    rw [handleMsg_not_auth _ _ _ _ (by simp [approveReq]),
      afterAuth_authed _ _ _ _ hauth, dispatch_approve _ _ _ _ rfl,
      handleApprove_success (touchUser st sess ts (approveReq R B)) sess
        (approveReq R B) R B rinfo rfl hR rfl
        (by rw [touchUser_rooms]; exact hlk) hadmin hpend]
    refine ⟨⟨rinfo.admin, rinfo.open_join, rinfo.visible, setAdd rinfo.members B,
      setDiscard rinfo.pending B, rinfo.shutdown⟩, ?_, ?_⟩
    · dsimp only
      rw [dlookup_updateRoom, if_pos rfl, touchUser_rooms, hlk]
      rfl
    · exact mem_setAdd.mpr (Or.inr rfl)

/-- Witness for the amended C7 at the shutState fixture: alice joining
the shutdown room "dead" gets the room-shutdown error; her messages
still append; approving pending bob still adds him to members. -/
theorem C7_shutdown_amended_witness :
    handleMsg shutState aliceSess 9 (Inbound.parsed (joinReq "dead")) =
        ⟨touchUser shutState aliceSess 9 (joinReq "dead"), aliceSess,
          [(aliceSess.wsId, OutMsg.error "room is shutdown")], false⟩ ∧
      (∀ t, pyStrip t ≠ "/help" →
        dlookup (handleMsg shutState aliceSess 9
            (Inbound.parsed (messageReq "dead" t))).st.history "dead" =
          some (add_history_list ((dlookup shutState.history "dead").getD [])
            ⟨"dead", aliceSess.username.getD "", t, 9⟩)) ∧
      (∀ B, (⟨some "alice", false, true, ["alice"], ["bob"], true⟩ : Room).admin =
          some (aliceSess.username.getD "") →
        B ∈ (⟨some "alice", false, true, ["alice"], ["bob"], true⟩ : Room).pending →
        ∃ rinfo2,
          dlookup (handleMsg shutState aliceSess 9
              (Inbound.parsed (approveReq "dead" B))).st.rooms "dead" =
            some rinfo2 ∧ B ∈ rinfo2.members) :=
  C7_shutdown_amended shutState aliceSess 9 "dead"
    ⟨some "alice", false, true, ["alice"], ["bob"], true⟩ (by decide) rfl rfl rfl

/-! ### Malformed and unknown payloads (C6) -/

theorem dispatch_unknown (st : ServerState) (sess : Session) (ts : Nat)
    (d : ClientMsg) (hrec : recognized d.type = false) :
    dispatch st sess ts d =
      ⟨st, sess,
        [(sess.wsId, OutMsg.error ("unknown command " ++ typeName d.type))],
        false⟩ := by
  unfold dispatch
  cases hdt : d.type with
  | none => simp
  | some s =>
    rw [hdt] at hrec
    unfold recognized at hrec
    rw [decide_eq_false_iff_not] at hrec
    unfold recognizedList at hrec
    simp only [List.mem_cons, List.not_mem_nil, not_or, or_false] at hrec
    obtain ⟨h1, h2, h3, h4, h5, h6, h7, h8, h9, h10, h11, h12, h13⟩ := hrec
    simp [Option.some.injEq, h2, h3, h4, h5, h6, h7, h8, h9, h10, h11, h12, h13]

/-- Claim C6 (amended): only unparseable input is silently dropped (no
reply, no state change); a well-formed payload with a missing or
unrecognized discriminator is answered — with the unknown-command error
when authenticated (also refreshing the sender's activity bookkeeping),
or with the auth-required error when not. -/
theorem C6_malformed_amended (st : ServerState) (sess : Session) (ts : Nat)
    (d : ClientMsg) (hrec : recognized d.type = false) :
    handleMsg st sess ts Inbound.malformed = ⟨st, sess, [], false⟩ ∧
      (sess.authed = true →
        handleMsg st sess ts (Inbound.parsed d) =
          ⟨touchUser st sess ts d, sess,
            [(sess.wsId, OutMsg.error ("unknown command " ++ typeName d.type))],
            false⟩) ∧
      (sess.authed = false →
        handleMsg st sess ts (Inbound.parsed d) =
          ⟨st, sess,
            [(sess.wsId,
              OutMsg.error "Please authenticate first (/login or /register)")],
            false⟩) := by
  have hna : d.type ≠ some "auth" := by
    intro h
    rw [h] at hrec
    exact absurd hrec (by decide)
  refine ⟨rfl, ?_, ?_⟩
  · intro hauth
    rw [handleMsg_not_auth _ _ _ _ hna, afterAuth_authed _ _ _ _ hauth,
      dispatch_unknown _ _ _ _ hrec]
  · intro hnauth
    exact handleMsg_unauth_gate st sess ts d hnauth hna

/-- Counterexample to C6 as stated: a well-formed payload with a missing
discriminator is not silently ignored — the authenticated sender gets an
unknown-command error reply, and the server state changes (the sender's
last-activity bookkeeping is refreshed). -/
theorem C6_malformed_counterexample :
    (handleMsg demoState demoSess 50 (Inbound.parsed blankMsg)).sends =
        [(5, OutMsg.error "unknown command None")] ∧
      (handleMsg demoState demoSess 50 (Inbound.parsed blankMsg)).st ≠
        demoState := by
  decide

/-- Witness for the amended C6 at the demo fixture. -/
theorem C6_malformed_amended_witness :
    handleMsg demoState demoSess 50 Inbound.malformed =
        ⟨demoState, demoSess, [], false⟩ ∧
      (demoSess.authed = true →
        handleMsg demoState demoSess 50 (Inbound.parsed blankMsg) =
          ⟨touchUser demoState demoSess 50 blankMsg, demoSess,
            [(demoSess.wsId,
              OutMsg.error ("unknown command " ++ typeName blankMsg.type))],
            false⟩) ∧
      (demoSess.authed = false →
        handleMsg demoState demoSess 50 (Inbound.parsed blankMsg) =
          ⟨demoState, demoSess,
            [(demoSess.wsId,
              OutMsg.error "Please authenticate first (/login or /register)")],
            false⟩) :=
  C6_malformed_amended demoState demoSess 50 blankMsg (by decide)

/-! ### Presence monitor (C8) -/

theorem tick_broadcasts_spec (l : List (String × Room)) (username status : String) :
    ∀ p ∈ l.filterMap (fun q =>
      if username ∈ q.2.members then
        some (q.1, OutMsg.presence_update username status)
      else none),
      ∃ q ∈ l, q.1 = p.1 ∧ username ∈ q.2.members ∧
        p.2 = OutMsg.presence_update username status := by
  intro p hp
  rw [List.mem_filterMap] at hp
  obtain ⟨q, hq, hfq⟩ := hp
  by_cases h : username ∈ q.2.members
  · rw [if_pos h] at hfq
    obtain rfl := Option.some.inj hfq
    exact ⟨q, hq, rfl, h, rfl⟩
  · rw [if_neg h] at hfq
    cases hfq

theorem tick_broadcasts_fst_sublist (l : List (String × Room))
    (username status : String) :
    List.Sublist
      ((l.filterMap (fun q =>
        if username ∈ q.2.members then
          some (q.1, OutMsg.presence_update username status)
        else none)).map Prod.fst)
      (l.map Prod.fst) := by
  induction l with
  | nil => exact List.Sublist.refl _
  | cons p rest ih =>
    rw [List.filterMap_cons, List.map_cons]
    by_cases h : username ∈ p.2.members
    · rw [if_pos h]
      exact List.Sublist.cons₂ p.1 ih
    · rw [if_neg h]
      exact List.Sublist.cons p.1 ih

/-- Claim C8: a monitor visit to one account broadcasts only on an actual
status transition (never when the recomputed status equals the previous
one), only to rooms where the account is currently a member, at most once
per room when room names are unique, and an account without a live
connection is always recomputed to offline, never to online. -/
theorem C8_presence_edge (st : ServerState) (username : String) (info : User)
    (ts : Nat) :
    ((tickUser st username info ts).2 ≠ [] →
        (tickUser st username info ts).1.status ≠ info.status) ∧
      ((tickUser st username info ts).1.status = info.status →
        (tickUser st username info ts).2 = []) ∧
      (∀ p ∈ (tickUser st username info ts).2,
        ∃ q ∈ st.rooms, q.1 = p.1 ∧ username ∈ q.2.members ∧
          p.2 = OutMsg.presence_update username
            (tickUser st username info ts).1.status) ∧
      ((st.rooms.map Prod.fst).Nodup →
        ((tickUser st username info ts).2.map Prod.fst).Nodup) ∧
      (info.ws = none → (tickUser st username info ts).1.status = "offline") := by
  unfold tickUser
  cases hws : info.ws with
  | none =>
    by_cases hst : info.status ≠ "offline"
    · rw [if_pos hst]
      refine ⟨fun h => absurd rfl h, fun _ => rfl, ?_, ?_, fun _ => rfl⟩
      · intro p hp
        exact absurd hp (List.not_mem_nil p)
      · intro _
        exact List.nodup_nil
    · rw [if_neg hst]
      refine ⟨fun h => absurd rfl h, fun _ => rfl, ?_, ?_, ?_⟩
      · intro p hp
        exact absurd hp (List.not_mem_nil p)
      · intro _
        exact List.nodup_nil
      · intro _
        exact of_not_not hst
  | some w =>
    have hwn : ¬(info.ws = none) := by
      rw [hws]
      intro h
      cases h
    by_cases hidle : IDLE_TIMEOUT < ts - info.last_active
    · rw [if_pos hidle]
      by_cases hst : info.status ≠ "idle"
      · rw [if_pos hst]
        refine ⟨fun _ e => hst e.symm, fun h => absurd h.symm hst, ?_, ?_,
          fun h => absurd (hws ▸ h) hwn⟩
        · exact tick_broadcasts_spec st.rooms username "idle"
        · intro hnd
          exact List.Nodup.sublist
            (tick_broadcasts_fst_sublist st.rooms username "idle") hnd
      · rw [if_neg hst]
        exact ⟨fun h => absurd rfl h, fun _ => rfl,
          fun p hp => absurd hp (List.not_mem_nil p),
          fun _ => List.nodup_nil, fun h => absurd (hws ▸ h) hwn⟩
    · rw [if_neg hidle]
      by_cases hst : info.status ≠ "online"
      · rw [if_pos hst]
        refine ⟨fun _ e => hst e.symm, fun h => absurd h.symm hst, ?_, ?_,
          fun h => absurd (hws ▸ h) hwn⟩
        · exact tick_broadcasts_spec st.rooms username "online"
        · intro hnd
          exact List.Nodup.sublist
            (tick_broadcasts_fst_sublist st.rooms username "online") hnd
      · rw [if_neg hst]
        exact ⟨fun h => absurd rfl h, fun _ => rfl,
          fun p hp => absurd hp (List.not_mem_nil p),
          fun _ => List.nodup_nil, fun h => absurd (hws ▸ h) hwn⟩

/-- Witness for C8: an idle-threshold crossing for alice (member of
general, online, last active at 0, now 1000) on the vip fixture. -/
theorem C8_presence_edge_witness :
    ((tickUser vipState "alice" ⟨"pw", some 0, 0, "online", ""⟩ 1000).2 ≠ [] →
        (tickUser vipState "alice" ⟨"pw", some 0, 0, "online", ""⟩ 1000).1.status ≠
          ("online" : String)) ∧
      ((tickUser vipState "alice" ⟨"pw", some 0, 0, "online", ""⟩ 1000).1.status =
          ("online" : String) →
        (tickUser vipState "alice" ⟨"pw", some 0, 0, "online", ""⟩ 1000).2 = []) ∧
      (∀ p ∈ (tickUser vipState "alice" ⟨"pw", some 0, 0, "online", ""⟩ 1000).2,
        ∃ q ∈ vipState.rooms, q.1 = p.1 ∧ "alice" ∈ q.2.members ∧
          p.2 = OutMsg.presence_update "alice"
            (tickUser vipState "alice" ⟨"pw", some 0, 0, "online", ""⟩ 1000).1.status) ∧
      ((vipState.rooms.map Prod.fst).Nodup →
        (((tickUser vipState "alice" ⟨"pw", some 0, 0, "online", ""⟩ 1000).2.map
          Prod.fst)).Nodup) ∧
      ((⟨"pw", some 0, 0, "online", ""⟩ : User).ws = none →
        (tickUser vipState "alice" ⟨"pw", some 0, 0, "online", ""⟩ 1000).1.status =
          "offline") :=
  C8_presence_edge vipState "alice" ⟨"pw", some 0, 0, "online", ""⟩ 1000

/-! ### Persistence coverage of the dispatcher (C2) -/

theorem handleDm_st (st : ServerState) (sess : Session) (d : ClientMsg) :
    (handleDm st sess d).st = st := by
  unfold handleDm
  dsimp only
  split
  · rfl
  · split <;> rfl

theorem handleWho_st (st : ServerState) (sess : Session) (d : ClientMsg) :
    (handleWho st sess d).st = st := by
  unfold handleWho
  dsimp only
  split <;> rfl

theorem handleTyping_persist (st : ServerState) (sess : Session) (d : ClientMsg) :
    persist (handleTyping st sess d).st = persist st := rfl

theorem handleCreateroom_persist_or (st : ServerState) (sess : Session)
    (d : ClientMsg) :
    (handleCreateroom st sess d).persisted = true ∨
      (handleCreateroom st sess d).st = st := by
  unfold handleCreateroom
  dsimp only
  split
  · exact Or.inr rfl
  · split
    · exact Or.inr rfl
    · exact Or.inl rfl

theorem handleEditroom_persist_or (st : ServerState) (sess : Session)
    (d : ClientMsg) :
    (handleEditroom st sess d).persisted = true ∨
      (handleEditroom st sess d).st = st := by
  unfold handleEditroom
  dsimp only
  split
  · exact Or.inr rfl
  · split
    · exact Or.inr rfl
    · exact Or.inl rfl

theorem handleJoin_persist_or (st : ServerState) (sess : Session) (d : ClientMsg) :
    (handleJoin st sess d).persisted = true ∨ (handleJoin st sess d).st = st := by
  unfold handleJoin
  dsimp only
  split
  · exact Or.inr rfl
  · split
    · exact Or.inr rfl
    · split
      · exact Or.inl rfl
      · exact Or.inl rfl

theorem handleApprove_persist_or (st : ServerState) (sess : Session)
    (d : ClientMsg) :
    (handleApprove st sess d).persisted = true ∨
      (handleApprove st sess d).st = st := by
  unfold handleApprove
  dsimp only
  split
  · exact Or.inr rfl
  · split
    · exact Or.inr rfl
    · split
      · exact Or.inr rfl
      · split
        · exact Or.inl rfl
        · exact Or.inr rfl

theorem handleDeny_persist_or (st : ServerState) (sess : Session) (d : ClientMsg) :
    (handleDeny st sess d).persisted = true ∨ (handleDeny st sess d).st = st := by
  unfold handleDeny
  dsimp only
  split
  · exact Or.inr rfl
  · split
    · exact Or.inr rfl
    · exact Or.inl rfl

theorem handleShutdown_persist_or (st : ServerState) (sess : Session)
    (d : ClientMsg) :
    (handleShutdown st sess d).persisted = true ∨
      (handleShutdown st sess d).st = st := by
  unfold handleShutdown
  dsimp only
  split
  · exact Or.inr rfl
  · split
    · exact Or.inr rfl
    · exact Or.inl rfl

/-- Across the authenticated dispatch: whenever the step ends without a
persist, either the durable image (what persist would write) is unchanged
or the operation was a room message. -/
theorem dispatch_persist (st : ServerState) (sess : Session) (ts : Nat)
    (d : ClientMsg) (hp : (dispatch st sess ts d).persisted = false) :
    persist (dispatch st sess ts d).st = persist st ∨
      d.type = some "message" := by
  by_cases h1 : d.type = some "message"
  · exact Or.inr h1
  · left
    unfold dispatch at hp ⊢
    rw [if_neg h1] at hp ⊢
    by_cases h2 : d.type = some "dm"
    · rw [if_pos h2] at hp ⊢
      rw [handleDm_st]
    · rw [if_neg h2] at hp ⊢
      by_cases h3 : d.type = some "createroom"
      · rw [if_pos h3] at hp ⊢
        rcases handleCreateroom_persist_or st sess d with hc | hc
        · rw [hc] at hp
          cases hp
        · rw [hc]
      · rw [if_neg h3] at hp ⊢
        by_cases h4 : d.type = some "editroom"
        · rw [if_pos h4] at hp ⊢
          rcases handleEditroom_persist_or st sess d with hc | hc
          · rw [hc] at hp
            cases hp
          · rw [hc]
        · rw [if_neg h4] at hp ⊢
          by_cases h5 : d.type = some "join"
          · rw [if_pos h5] at hp ⊢
            rcases handleJoin_persist_or st sess d with hc | hc
            · rw [hc] at hp
              cases hp
            · rw [hc]
          · rw [if_neg h5] at hp ⊢
            by_cases h6 : d.type = some "approve"
            · rw [if_pos h6] at hp ⊢
              rcases handleApprove_persist_or st sess d with hc | hc
              · rw [hc] at hp
                cases hp
              · rw [hc]
            · rw [if_neg h6] at hp ⊢
              by_cases h7 : d.type = some "deny"
              · rw [if_pos h7] at hp ⊢
                rcases handleDeny_persist_or st sess d with hc | hc
                · rw [hc] at hp
                  cases hp
                · rw [hc]
              · rw [if_neg h7] at hp ⊢
                by_cases h8 : d.type = some "rooms"
                · rw [if_pos h8]
                  rfl
                · rw [if_neg h8] at hp ⊢
                  by_cases h9 : d.type = some "who"
                  · rw [if_pos h9]
                    rw [handleWho_st]
                  · rw [if_neg h9] at hp ⊢
                    by_cases h10 : d.type = some "typing"
                    · rw [if_pos h10]
                      exact handleTyping_persist st sess d
                    · rw [if_neg h10] at hp ⊢
                      by_cases h11 : d.type = some "history"
                      · rw [if_pos h11]
                        rfl
                      · rw [if_neg h11] at hp ⊢
                        by_cases h12 : d.type = some "shutdown"
                        · rw [if_pos h12] at hp ⊢
                          rcases handleShutdown_persist_or st sess d with hc | hc
                          · rw [hc] at hp
                            cases hp
                          · rw [hc]
                        · rw [if_neg h12]

theorem registerOp_persist_or (st : ServerState) (sess : Session) (ts : Nat)
    (us ps : String) :
    (registerOp st sess ts us ps).persisted = true ∨
      (registerOp st sess ts us ps).st = st := by
  unfold registerOp
  dsimp only
  split
  · exact Or.inr rfl
  · exact Or.inl rfl

theorem afterAuth_persist (st : ServerState) (sess : Session) (ts : Nat)
    (d : ClientMsg) (hp : (afterAuth st sess ts d).persisted = false) :
    persist (afterAuth st sess ts d).st = persist st ∨
      d.type = some "message" := by
  unfold afterAuth at hp ⊢
  by_cases ha : sess.authed = true
  · rw [if_pos ha] at hp ⊢
    rcases dispatch_persist _ sess ts d hp with hc | hc
    · exact Or.inl (hc.trans (persist_touchUser st sess ts d))
    · exact Or.inr hc
  · rw [if_neg ha]
    exact Or.inl rfl

/-- Claim C2 (amended): whenever a step of the dispatcher finishes
without calling persist, the durable image (what persist writes: account
credentials, rooms, history) is unchanged — except for the two
operations that mutate durable state without persisting: send-room-message
(history append and implicit room creation) and login (auto-join of the
general room). -/
theorem C2_persist_amended (st : ServerState) (sess : Session) (ts : Nat)
    (raw : Inbound)
    (hp : (handleMsg st sess ts raw).persisted = false) :
    persist (handleMsg st sess ts raw).st = persist st ∨
      ∃ d, raw = Inbound.parsed d ∧ (d.type = some "message" ∨
        (d.type = some "auth" ∧ d.action = some "login")) := by
  cases raw with
  | malformed => exact Or.inl rfl
  | parsed d =>
    by_cases hauth : d.type = some "auth"
    · rw [handleMsg_parsed, if_pos hauth] at hp ⊢
      unfold authStep at hp ⊢
      by_cases hup : (truthy d.username && truthy d.password) = true
      · rw [if_pos hup] at hp ⊢
        by_cases hreg : d.action = some "register"
        · rw [if_pos hreg] at hp ⊢
          dsimp only at hp ⊢
          rcases registerOp_persist_or st sess ts (d.username.getD "")
              (d.password.getD "") with hc | hc
          · rw [hc] at hp
            cases hp
          · rw [hc]
            exact Or.inl rfl
        · rw [if_neg hreg] at hp ⊢
          by_cases hlog : d.action = some "login"
          · exact Or.inr ⟨d, rfl, Or.inr ⟨hauth, hlog⟩⟩
          · rw [if_neg hlog] at hp ⊢
            dsimp only at hp ⊢
            rcases afterAuth_persist st sess ts d hp with hc | hc
            · exact Or.inl hc
            · exact Or.inr ⟨d, rfl, Or.inl hc⟩
      · rw [if_neg hup] at hp ⊢
        dsimp only at hp ⊢
        exact Or.inl rfl
    · rw [handleMsg_not_auth _ _ _ _ hauth] at hp ⊢
      rcases afterAuth_persist st sess ts d hp with hc | hc
      · exact Or.inl hc
      · exact Or.inr ⟨d, rfl, Or.inl hc⟩

/-- Counterexample to C2 as stated: a room message appends to history
(durable) without any persist, and a login mutates the general room's
membership (durable) without any persist, so those two state-mutating
operations do not trigger a snapshot. -/
theorem C2_persist_counterexample :
    ((handleMsg demoState demoSess 50
          (Inbound.parsed (messageReq "general" "hi"))).persisted = false ∧
        persist (handleMsg demoState demoSess 50
            (Inbound.parsed (messageReq "general" "hi"))).st ≠
          persist demoState) ∧
      ((handleMsg offlineState ⟨none, false, "general", 3⟩ 60
          (Inbound.parsed (authReq "login" "alice" "pw"))).persisted = false ∧
        persist (handleMsg offlineState ⟨none, false, "general", 3⟩ 60
            (Inbound.parsed (authReq "login" "alice" "pw"))).st ≠
          persist offlineState) := by
  decide

/-- Witness for the amended C2: the room-message step at the demo
fixture ends unpersisted and falls under the message exception. -/
theorem C2_persist_amended_witness :
    persist (handleMsg demoState demoSess 50
        (Inbound.parsed (messageReq "general" "hi"))).st = persist demoState ∨
      ∃ d, Inbound.parsed (messageReq "general" "hi") = Inbound.parsed d ∧
        (d.type = some "message" ∨
          (d.type = some "auth" ∧ d.action = some "login")) :=
  C2_persist_amended demoState demoSess 50
    (Inbound.parsed (messageReq "general" "hi")) (by decide)

end Chat
